import Mathlib

/-!
Verification of the CenturyLink Cloud machine driver
(src/drivers/centurylinkcloud/centurylinkcloud.go) against its
natural-language specification.

The driver is embedded shallowly: the opaque remote transport (the clcgo
client, the SSH transport, stdin) is modelled by an `Env` of scripted
results, one field per call site (lists for calls made repeatedly inside a
polling loop, per-object run scripts for SSH command objects).  Driver
methods become pure functions from `Env` and `Driver` to their Go results,
paired with a chronological trace of the external calls they performed.
Potentially non-terminating polling loops are given the whole (finite)
script; exhausting the script with the loop still running is reported as
`LoopExit.diverge` / `Res.diverge`, the finite-script image of the
unbounded Go loop never observing success.
-/

namespace CLC

/-- Go errors as the driver observes them: either a `clcgo.RequestError`
carrying an HTTP status code, or any other error, carried as its message.
(The field-level error map of `RequestError` is only logged by the driver,
never branched on, and is elided.) -/
inductive GoError where
  | requestError (statusCode : Nat)
  | simple (message : String)
deriving DecidableEq, Repr

/-- clcgo.APICredentials: a bearer token paired with an account alias. -/
structure APICredentials where
  bearerToken : String
  accountAlias : String
deriving DecidableEq, Repr

/-- clcgo.Client, reduced to the credentials the driver stores on it. -/
structure Client where
  apiCredentials : APICredentials
deriving DecidableEq, Repr

/-- One entry of Server.Details.IPAddresses: a public and an internal
address value (empty string for absent, as in Go). -/
structure IPAddress where
  public : String
  internal : String
deriving DecidableEq, Repr

/-- Server.Details, reduced to the address list the driver reads. -/
structure ServerDetails where
  ipAddresses : List IPAddress
deriving DecidableEq, Repr

/-- clcgo.Server.  `isActive` and `isPaused` carry the results of the
library methods IsActive() / IsPaused(); `serverType` is the Type field. -/
structure Server where
  id : String
  name : String
  groupID : String
  sourceServerID : String
  cpu : Int
  memoryGB : Int
  serverType : String
  details : ServerDetails
  isActive : Bool
  isPaused : Bool
deriving DecidableEq, Repr

/-- The zero value of clcgo.Server. -/
def emptyServer : Server :=
  { id := "", name := "", groupID := "", sourceServerID := "", cpu := 0,
    memoryGB := 0, serverType := "", details := { ipAddresses := [] },
    isActive := false, isPaused := false }

/-- clcgo.Server{ID: id}, the stub getServer starts from. -/
def serverWithID (id : String) : Server :=
  { emptyServer with id := id }

/-- clcgo.Status of an asynchronous operation.  `hasSucceeded` carries the
result of the HasSucceeded() method; `status` is the Status string that is
only logged. -/
structure Status where
  hasSucceeded : Bool
  status : String
deriving DecidableEq, Repr

/-- clcgo.Credentials: one-time root credentials for a server. -/
structure SSHCredentials where
  password : String
deriving DecidableEq, Repr

/-- clcgo.Port. -/
structure Port where
  protocol : String
  port : Nat
deriving DecidableEq, Repr

/-- clcgo.PublicIPAddress: the attach-address request body. -/
structure PublicIPAddress where
  server : Server
  ports : List Port
deriving DecidableEq, Repr

/-- clcgo operation kinds used by the driver. -/
inductive OperationType where
  | powerOnServer
  | powerOffServer
  | rebootServer
deriving DecidableEq, Repr

/-- The docker machine state enum (the values this driver returns). -/
inductive MachineState where
  | Running
  | Paused
  | Stopped
  | Error
deriving DecidableEq, Repr

/-- One external call performed by the driver, recorded in traces in
chronological order. -/
inductive Event where
  | probeDataCenters
  | readPassword
  | authenticate
  | fetchServer
  | saveOperation
  | deleteServer
  | sleep
  | fetchStatus
  | saveServer
  | saveIPAddress
  | fetchCredentials
  | waitForSSH
  | dialSSH
  | newSession
  | generateKey
  | readPublicKey
  | runSession
  | runCommand (command : String)
deriving DecidableEq, Repr

/-- The persisted driver state (the fields the embedded methods read or
write; CaCertPath and PrivateKeyPath are never used by them). -/
structure Driver where
  machineName : String
  storePath : String
  bearerToken : String
  accountAlias : String
  serverID : String
  username : String
  serverName : String
  groupID : String
  sourceServerID : String
  cpu : Int
  memoryGB : Int
  password : String
deriving DecidableEq, Repr

/-- An ssh.GetSSHCommand result: host, port, user, key path and the joined
command string (every driver call site passes exactly one argument). -/
structure SSHCmd where
  host : String
  port : Nat
  user : String
  keyPath : String
  command : String
deriving DecidableEq, Repr

/-- The scripted environment: one field per external call site of the
driver.  List fields script the successive status fetches of one polling
loop; `cmdRuns` scripts, per command string, the successive Run() results
of the exec.Cmd object built for that command. -/
structure Env where
  probeResult : Except GoError Unit
  stdinResult : Except GoError String
  authResult : String → String → Except GoError APICredentials
  serverFetch : String → Except GoError Server
  opSave : Server → OperationType → Except GoError Status
  opPollScript : List (Except GoError Status)
  deleteEntity : Server → Except GoError Status
  deletePollScript : List (Except GoError Status)
  serverSave : Server → Except GoError Status
  createPollScript : List (Except GoError Status)
  createRefetch : Except GoError Server
  ipSave : PublicIPAddress → Except GoError Status
  ipPollScript : List (Except GoError Status)
  ipRefetch : Except GoError Server
  credFetch : Server → Except GoError SSHCredentials
  waitTCP : Option GoError
  dial : String → Option GoError
  newSession : Option GoError
  genKey : String → Option GoError
  readKey : String → Except GoError String
  sessionRun : String → Option GoError
  cmdRuns : String → List (Option GoError)

/-- A Go function result that may also fail to return at all (a polling
loop that never observes a terminal status). -/
inductive Res (α : Type) where
  | ret (v : α) (err : Option GoError)
  | diverge
deriving DecidableEq, Repr

/-- How one polling loop ended. -/
inductive LoopExit where
  | ok
  | err (e : GoError)
  | diverge
deriving DecidableEq, Repr

/-- The polling loop shared (textually duplicated in Go) by doOperation,
Remove, createServer and addPublicIPAddress:
`for !st.HasSucceeded() { sleep(10s); if err := c.GetEntity(&st); err != nil { return err } }`.
Each iteration sleeps the fixed interval, then consumes one scripted fetch
result. -/
def pollLoop (st : Status) : List (Except GoError Status) → LoopExit × List Event
  | [] => if st.hasSucceeded then (.ok, []) else (.diverge, [])
  | r :: rest =>
    if st.hasSucceeded then (.ok, [])
    else
      match r with
      | .error e => (.err e, [.sleep, .fetchStatus])
      | .ok next =>
        let (x, tr) := pollLoop next rest
        (x, .sleep :: .fetchStatus :: tr)

/-- The trace of n polling iterations: a fixed delay, then a status fetch,
n times over. -/
def pollTrace : Nat → List Event
  | 0 => []
  | n + 1 => .sleep :: .fetchStatus :: pollTrace n

/-- logAndReturnError logs the field errors of a RequestError and returns
the error itself unchanged (for any error kind). -/
def logAndReturnError (e : GoError) : GoError := e

/-- The password selection prelude of updateAPICredentials: use the flag
password if present, otherwise prompt and read a line from stdin and trim
it (strings.TrimSpace). -/
def acquirePassword (env : Env) (d : Driver) : Except GoError String × List Event :=
  if d.password ≠ "" then (.ok d.password, [])
  else
    match env.stdinResult with
    | .error e => (.error e, [.readPassword])
    | .ok input => (.ok input.trim, [.readPassword])

/-- updateAPICredentials: obtain a password, call GetAPICredentials, and on
success store the new credentials on both the client and the driver. -/
def updateAPICredentials (env : Env) (d : Driver) (c : Client) :
    (Driver × Client × Option GoError) × List Event :=
  match acquirePassword env d with
  | (.error e, tr) => ((d, c, some e), tr)
  | (.ok password, tr) =>
    match env.authResult d.username password with
    | .error e => ((d, c, some e), tr ++ [.authenticate])
    | .ok creds =>
      (({ d with accountAlias := creds.accountAlias, bearerToken := creds.bearerToken },
        { c with apiCredentials := creds }, none), tr ++ [.authenticate])

/-- The client carrying the cached driver credentials. -/
def cachedClient (d : Driver) : Client :=
  { apiCredentials := { bearerToken := d.bearerToken, accountAlias := d.accountAlias } }

/-- getClientWithPersistence: with no cached pair, authenticate afresh
(Go returns a nil client next to the error on that path; the client half
is never read by any caller when the error is set, so the fresh client is
returned here).  With a cached pair, probe with GetEntity(&DataCenters{});
a 401 RequestError triggers one updateAPICredentials; any other probe
failure is returned as is. -/
def getClientWithPersistence (env : Env) (d : Driver) :
    (Driver × Client × Option GoError) × List Event :=
  let c : Client := { apiCredentials := { bearerToken := "", accountAlias := "" } }
  if d.bearerToken = "" ∨ d.accountAlias = "" then
    updateAPICredentials env d c
  else
    let c := cachedClient d
    match env.probeResult with
    | .ok _ => ((d, c, none), [.probeDataCenters])
    | .error err =>
      if err = GoError.requestError 401 then
        match updateAPICredentials env d c with
        | ((d2, c2, e?), tr) => ((d2, c2, e?), .probeDataCenters :: tr)
      else
        ((d, c, some err), [.probeDataCenters])

/-- getServer: ensure a client, then fetch the server by ID; a 404
RequestError becomes the domain error naming the ID, every other fetch
failure is returned unchanged. -/
def getServer (env : Env) (d : Driver) :
    (Driver × Client × Server × Option GoError) × List Event :=
  let s := serverWithID d.serverID
  match getClientWithPersistence env d with
  | ((d2, c, some e), tr) => ((d2, c, s, some e), tr)
  | ((d2, c, none), tr) =>
    match env.serverFetch d.serverID with
    | .error err =>
      if err = GoError.requestError 404 then
        ((d2, c, s,
          some (.simple ("unable to find a server with the ID \'" ++ d.serverID ++ "\'"))),
         tr ++ [.fetchServer])
      else
        ((d2, c, s, some err), tr ++ [.fetchServer])
    | .ok s2 => ((d2, c, s2, none), tr ++ [.fetchServer])

/-- doOperation: resolve the server, submit a ServerOperation and poll it.
A SaveEntity failure returns nil (the failure is swallowed) without
entering the poll loop. -/
def doOperation (env : Env) (d : Driver) (t : OperationType) :
    (Driver × Res Unit) × List Event :=
  match getServer env d with
  | ((d2, _, _, some e), tr) => ((d2, .ret () (some e)), tr)
  | ((d2, _, s, none), tr) =>
    match env.opSave s t with
    | .error _ => ((d2, .ret () none), tr ++ [.saveOperation])
    | .ok st =>
      match pollLoop st env.opPollScript with
      | (.ok, ptr) => ((d2, .ret () none), tr ++ .saveOperation :: ptr)
      | (.err e, ptr) => ((d2, .ret () (some e)), tr ++ .saveOperation :: ptr)
      | (.diverge, ptr) => ((d2, .diverge), tr ++ .saveOperation :: ptr)

/-- Start: doOperation with PowerOnServer (the wrapper re-returns the
error unchanged). -/
def Start (env : Env) (d : Driver) : (Driver × Res Unit) × List Event :=
  doOperation env d .powerOnServer

/-- Stop: doOperation with PowerOffServer. -/
def Stop (env : Env) (d : Driver) : (Driver × Res Unit) × List Event :=
  doOperation env d .powerOffServer

/-- Restart: doOperation with RebootServer. -/
def Restart (env : Env) (d : Driver) : (Driver × Res Unit) × List Event :=
  doOperation env d .rebootServer

/-- Kill: doOperation with PowerOffServer. -/
def Kill (env : Env) (d : Driver) : (Driver × Res Unit) × List Event :=
  doOperation env d .powerOffServer

/-- Remove: resolve the server, submit DeleteEntity — propagating a
submission failure — then poll the returned status. -/
def Remove (env : Env) (d : Driver) : (Driver × Res Unit) × List Event :=
  match getServer env d with
  | ((d2, _, _, some e), tr) => ((d2, .ret () (some e)), tr)
  | ((d2, _, s, none), tr) =>
    match env.deleteEntity s with
    | .error e => ((d2, .ret () (some e)), tr ++ [.deleteServer])
    | .ok st =>
      match pollLoop st env.deletePollScript with
      | (.ok, ptr) => ((d2, .ret () none), tr ++ .deleteServer :: ptr)
      | (.err e, ptr) => ((d2, .ret () (some e)), tr ++ .deleteServer :: ptr)
      | (.diverge, ptr) => ((d2, .diverge), tr ++ .deleteServer :: ptr)

/-- publicIPFromServer: the Public value of the first address whose Public
value is non-empty, else the empty string. -/
def publicIPFromAddresses : List IPAddress → String
  | [] => ""
  | a :: rest => if a.public ≠ "" then a.public else publicIPFromAddresses rest

/-- publicIPFromServer over a server's detail addresses. -/
def publicIPFromServer (s : Server) : String :=
  publicIPFromAddresses s.details.ipAddresses

/-- GetIP: resolve the server; a non-empty first public address is the
result, otherwise the domain error (the Go pair (string, error) is kept as
a pair of a value and an optional error). -/
def GetIP (env : Env) (d : Driver) : (Driver × String × Option GoError) × List Event :=
  match getServer env d with
  | ((d2, _, _, some e), tr) => ((d2, "", some e), tr)
  | ((d2, _, s, none), tr) =>
    let address := publicIPFromServer s
    if address ≠ "" then ((d2, address, none), tr)
    else ((d2, "", some (.simple "no IP could be found for this server")), tr)

/-- GetState: resolve the server and map IsActive / IsPaused; a resolution
failure yields state.Error together with the error. -/
def GetState (env : Env) (d : Driver) :
    (Driver × MachineState × Option GoError) × List Event :=
  match getServer env d with
  | ((d2, _, _, some e), tr) => ((d2, .Error, some e), tr)
  | ((d2, _, s, none), tr) =>
    if s.isActive then ((d2, .Running, none), tr)
    else if s.isPaused then ((d2, .Paused, none), tr)
    else ((d2, .Stopped, none), tr)

/-- sshKeyPath: filepath.Join(storePath, "id_rsa"). -/
def Driver.sshKeyPath (d : Driver) : String :=
  d.storePath ++ "/id_rsa"

/-- GetSSHCommand: look up the IP and build the SSH command object for
root on port 22 with the store key. -/
def GetSSHCommand (env : Env) (d : Driver) (args : String) :
    (Driver × Except GoError SSHCmd) × List Event :=
  match GetIP env d with
  | ((d2, _, some e), tr) => ((d2, .error e), tr)
  | ((d2, ip, none), tr) =>
    ((d2, .ok { host := ip, port := 22, user := "root",
                keyPath := d2.sshKeyPath, command := args }), tr)

/-- Run() number `i` of the exec.Cmd object for this command (the script
runs out: modelled as a failing run, never silent success). -/
def runCmd (env : Env) (c : SSHCmd) (i : Nat) : Option GoError :=
  (env.cmdRuns c.command).getD i (some (.simple "unscripted command run"))

/-- The upgrade shell command. -/
def upgradeCommand : String :=
  "sudo apt-get update && apt-get install --upgrade lxc-docker"

/-- Upgrade: build the upgrade command, run it, and if that run succeeded
run the same command object once more, returning the second result. -/
def Upgrade (env : Env) (d : Driver) : (Driver × Option GoError) × List Event :=
  match GetSSHCommand env d upgradeCommand with
  | ((d2, .error e), tr) => ((d2, some e), tr)
  | ((d2, .ok cmd), tr) =>
    match runCmd env cmd 0 with
    | some e => ((d2, some e), tr ++ [.runCommand cmd.command])
    | none => ((d2, runCmd env cmd 1), tr ++ [.runCommand cmd.command, .runCommand cmd.command])

/-- The creation request body built by createServer. -/
def requestServer (d : Driver) : Server :=
  { emptyServer with
    name := d.serverName, groupID := d.groupID, sourceServerID := d.sourceServerID,
    cpu := d.cpu, memoryGB := d.memoryGB, serverType := "standard" }

/-- createServer: submit the creation request, poll it, re-fetch the
server and store its assigned ID on the driver. -/
def createServer (env : Env) (d : Driver) : (Driver × Res Server) × List Event :=
  let s := requestServer d
  match env.serverSave s with
  | .error e => ((d, .ret s (some (logAndReturnError e))), [.saveServer])
  | .ok st =>
    match pollLoop st env.createPollScript with
    | (.err e, ptr) => ((d, .ret s (some e)), .saveServer :: ptr)
    | (.diverge, ptr) => ((d, .diverge), .saveServer :: ptr)
    | (.ok, ptr) =>
      match env.createRefetch with
      | .error e => ((d, .ret s (some e)), .saveServer :: ptr ++ [.fetchServer])
      | .ok s2 =>
        (({ d with serverID := s2.id }, .ret s2 none), .saveServer :: ptr ++ [.fetchServer])

/-- The attach-address request body: TCP 22 (SSH) and TCP 2376 (docker). -/
def publicIPRequest (s : Server) : PublicIPAddress :=
  { server := s,
    ports := [{ protocol := "TCP", port := 22 }, { protocol := "TCP", port := 2376 }] }

/-- addPublicIPAddress: submit the attach request, poll it, re-fetch the
server, and fail with the domain error if it still has no public address.
(The Go receiver is an unused value copy of the driver.) -/
def addPublicIPAddress (env : Env) (s : Server) : Res Server × List Event :=
  match env.ipSave (publicIPRequest s) with
  | .error e => (.ret s (some (logAndReturnError e)), [.saveIPAddress])
  | .ok st =>
    match pollLoop st env.ipPollScript with
    | (.err e, ptr) => (.ret s (some e), .saveIPAddress :: ptr)
    | (.diverge, ptr) => (.diverge, .saveIPAddress :: ptr)
    | (.ok, ptr) =>
      match env.ipRefetch with
      | .error e => (.ret s (some e), .saveIPAddress :: ptr ++ [.fetchServer])
      | .ok s2 =>
        let ip := publicIPFromServer s2
        if ip = "" then
          (.ret s2 (some (.simple "could not find an IP Address for the server")),
           .saveIPAddress :: ptr ++ [.fetchServer])
        else
          (.ret s2 none, .saveIPAddress :: ptr ++ [.fetchServer])

/-- The remote command appending the new public key. -/
def authorizedKeysCommand (pk : String) : String :=
  "echo \"" ++ pk ++ "\" >> ~/.ssh/authorized_keys"

/-- generateAndWriteSSHKey: fetch one-time credentials, wait for the SSH
port, dial with the one-time password, open a session, generate a key
pair, read the public key and append it to authorized_keys. -/
def generateAndWriteSSHKey (env : Env) (d : Driver) (s : Server) :
    Option GoError × List Event :=
  match env.credFetch s with
  | .error e => (some e, [.fetchCredentials])
  | .ok cr =>
    match env.waitTCP with
    | some e => (some e, [.fetchCredentials, .waitForSSH])
    | none =>
      match env.dial cr.password with
      | some e => (some e, [.fetchCredentials, .waitForSSH, .dialSSH])
      | none =>
        match env.newSession with
        | some e => (some e, [.fetchCredentials, .waitForSSH, .dialSSH, .newSession])
        | none =>
          match env.genKey d.sshKeyPath with
          | some e =>
            (some e, [.fetchCredentials, .waitForSSH, .dialSSH, .newSession, .generateKey])
          | none =>
            match env.readKey (d.sshKeyPath ++ ".pub") with
            | .error e =>
              (some e, [.fetchCredentials, .waitForSSH, .dialSSH, .newSession,
                        .generateKey, .readPublicKey])
            | .ok pk =>
              match env.sessionRun (authorizedKeysCommand pk) with
              | some e =>
                (some e, [.fetchCredentials, .waitForSSH, .dialSSH, .newSession,
                          .generateKey, .readPublicKey, .runSession])
              | none =>
                (none, [.fetchCredentials, .waitForSSH, .dialSSH, .newSession,
                        .generateKey, .readPublicKey, .runSession])

/-- The hostname shell command built by setHostname. -/
def hostnameCommand (name : String) : String :=
  "echo \"127.0.0.1 " ++ name ++ "\" | sudo tee -a /etc/hosts && sudo hostname "
    ++ name ++ " && echo \"" ++ name ++ "\" | sudo tee /etc/hostname"

/-- setHostname: build the hostname command over SSH and run it once. -/
def setHostname (env : Env) (d : Driver) : (Driver × Option GoError) × List Event :=
  match GetSSHCommand env d (hostnameCommand d.machineName) with
  | ((d2, .error e), tr) => ((d2, some e), tr)
  | ((d2, .ok cmd), tr) => ((d2, runCmd env cmd 0), tr ++ [.runCommand cmd.command])

/-- The idempotent docker install command. -/
def installDockerCommand : String :=
  "if [ ! -e /usr/bin/docker ]; then curl -sL https://get.docker.com | sh -; fi"

/-- installDocker: build the install command over SSH and run it once. -/
def installDocker (env : Env) (d : Driver) : (Driver × Option GoError) × List Event :=
  match GetSSHCommand env d installDockerCommand with
  | ((d2, .error e), tr) => ((d2, some e), tr)
  | ((d2, .ok cmd), tr) => ((d2, runCmd env cmd 0), tr ++ [.runCommand cmd.command])

/-- Create: client, createServer, addPublicIPAddress,
generateAndWriteSSHKey, setHostname, installDocker, each gated on the
previous step succeeding. -/
def Create (env : Env) (d : Driver) : (Driver × Res Unit) × List Event :=
  match getClientWithPersistence env d with
  | ((d1, _, some e), tr0) => ((d1, .ret () (some e)), tr0)
  | ((d1, _, none), tr0) =>
    match createServer env d1 with
    | ((d2, .diverge), tr1) => ((d2, .diverge), tr0 ++ tr1)
    | ((d2, .ret _ (some e)), tr1) => ((d2, .ret () (some e)), tr0 ++ tr1)
    | ((d2, .ret s none), tr1) =>
      match addPublicIPAddress env s with
      | (.diverge, tr2) => ((d2, .diverge), tr0 ++ tr1 ++ tr2)
      | (.ret _ (some e), tr2) => ((d2, .ret () (some e)), tr0 ++ tr1 ++ tr2)
      | (.ret s2 none, tr2) =>
        match generateAndWriteSSHKey env d2 s2 with
        | (some e, tr3) => ((d2, .ret () (some e)), tr0 ++ tr1 ++ tr2 ++ tr3)
        | (none, tr3) =>
          match setHostname env d2 with
          | ((d3, some e), tr4) => ((d3, .ret () (some e)), tr0 ++ tr1 ++ tr2 ++ tr3 ++ tr4)
          | ((d3, none), tr4) =>
            match installDocker env d3 with
            | ((d4, e?), tr5) =>
              ((d4, .ret () e?), tr0 ++ tr1 ++ tr2 ++ tr3 ++ tr4 ++ tr5)

/-! Concrete fixtures used to exercise the theorems on closed inputs. -/

/-- A driver with cached credentials, a flag password and a known server. -/
def testDriver : Driver :=
  { machineName := "demo", storePath := "/store", bearerToken := "tok",
    accountAlias := "acct", serverID := "srv1", username := "user",
    serverName := "demo", groupID := "g1",
    sourceServerID := "UBUNTU-14-64-TEMPLATE", cpu := 1, memoryGB := 2,
    password := "pw" }

/-- A terminal-success operation status. -/
def doneStatus : Status := { hasSucceeded := true, status := "succeeded" }

/-- A non-terminal operation status. -/
def pendingStatus : Status := { hasSucceeded := false, status := "executing" }

/-- A provisioned server with one public address. -/
def testServer : Server :=
  { id := "srv1", name := "demo", groupID := "g1",
    sourceServerID := "UBUNTU-14-64-TEMPLATE", cpu := 1, memoryGB := 2,
    serverType := "standard",
    details := { ipAddresses := [{ public := "1.2.3.4", internal := "10.0.0.1" }] },
    isActive := true, isPaused := false }

/-- A server whose only address is private. -/
def privateServer : Server :=
  { testServer with details := { ipAddresses := [{ public := "", internal := "10.0.0.1" }] } }

/-- An environment where every external call succeeds and every poll
script reports one pending status and then success. -/
def testEnv : Env :=
  { probeResult := .ok (),
    stdinResult := .ok "pw\n",
    authResult := fun _ _ => .ok { bearerToken := "tok2", accountAlias := "acct2" },
    serverFetch := fun _ => .ok testServer,
    opSave := fun _ _ => .ok pendingStatus,
    opPollScript := [.ok doneStatus],
    deleteEntity := fun _ => .ok pendingStatus,
    deletePollScript := [.ok doneStatus],
    serverSave := fun _ => .ok pendingStatus,
    createPollScript := [.ok doneStatus],
    createRefetch := .ok testServer,
    ipSave := fun _ => .ok pendingStatus,
    ipPollScript := [.ok doneStatus],
    ipRefetch := .ok testServer,
    credFetch := fun _ => .ok { password := "root1" },
    waitTCP := none,
    dial := fun _ => none,
    newSession := none,
    genKey := fun _ => none,
    readKey := fun _ => .ok "ssh-rsa KEY",
    sessionRun := fun _ => none,
    cmdRuns := fun _ => [none, none] }

/-- testEnv with a failing ServerOperation submission. -/
def opSaveFailEnv : Env :=
  { testEnv with opSave := fun _ _ => .error (.simple "boom") }

/-- testEnv with a three-step lifecycle poll script: pending, pending,
succeeded. -/
def threePollEnv : Env :=
  { testEnv with opPollScript := [.ok pendingStatus, .ok pendingStatus, .ok doneStatus] }

/-- testEnv whose probe fails with a non-401 RequestError. -/
def probe500Env : Env :=
  { testEnv with probeResult := .error (.requestError 500) }

/-- testEnv whose probe fails with 401. -/
def probe401Env : Env :=
  { testEnv with probeResult := .error (.requestError 401) }

/-- probe401Env whose re-authentication fails. -/
def probe401AuthFailEnv : Env :=
  { probe401Env with authResult := fun _ _ => .error (.simple "bad login") }

/-- testEnv whose server fetch reports 404. -/
def fetch404Env : Env :=
  { testEnv with serverFetch := fun _ => .error (.requestError 404) }

/-- testEnv whose server fetch reports a plain transport failure. -/
def fetch500Env : Env :=
  { testEnv with serverFetch := fun _ => .error (.requestError 500) }

/-- testEnv whose attach-address submission fails. -/
def ipSaveFailEnv : Env :=
  { testEnv with ipSave := fun _ => .error (.simple "attach failed") }

/-- testEnv resolving a server with only a private address. -/
def privateFetchEnv : Env :=
  { testEnv with serverFetch := fun _ => .ok privateServer }

/-- testEnv resolving a paused server. -/
def pausedFetchEnv : Env :=
  { testEnv with serverFetch := fun _ => .ok { testServer with isActive := false, isPaused := true } }

/-- testEnv resolving a server that is neither active nor paused. -/
def stoppedFetchEnv : Env :=
  { testEnv with serverFetch := fun _ => .ok { testServer with isActive := false, isPaused := false } }

/-- testEnv whose lifecycle poll script starts with a transport failure. -/
def pollFailEnv : Env :=
  { testEnv with opPollScript := [.error (.simple "net down")],
                 deletePollScript := [.error (.simple "net down")],
                 createPollScript := [.error (.simple "net down")],
                 ipPollScript := [.error (.simple "net down")] }

/-- testEnv whose delete submission fails. -/
def deleteFailEnv : Env :=
  { testEnv with deleteEntity := fun _ => .error (.simple "delete refused") }

/-- testEnv where the first run of the upgrade command fails. -/
def upgradeFail1Env : Env :=
  { testEnv with cmdRuns := fun _ => [some (.simple "run one failed"), none] }

/-- testEnv where the first run of the upgrade command succeeds and the
second fails. -/
def upgradeFail2Env : Env :=
  { testEnv with cmdRuns := fun _ => [none, some (.simple "run two failed")] }

/-! Helper lemmas about the polling loop and the traces of the shared
resolution prelude. -/

theorem pollLoop_ok_script (ns : List Status) :
    ∀ st : Status, st.hasSucceeded = false → (∀ s ∈ ns, s.hasSucceeded = false) →
    ∀ term : Status, term.hasSucceeded = true →
    pollLoop st (ns.map Except.ok ++ [Except.ok term]) =
      (LoopExit.ok, pollTrace (ns.length + 1)) := by
  induction ns with
  | nil =>
    intro st h0 _ term ht
    simp [pollLoop, h0, ht, pollTrace]
  | cons a rest ih =>
    intro st h0 hns term ht
    have ha : a.hasSucceeded = false := hns a (by simp)
    have hrest : ∀ s ∈ rest, s.hasSucceeded = false := fun s hs => hns s (by simp [hs])
    simp [pollLoop, h0, ih a ha hrest term ht, pollTrace]

theorem pollLoop_diverge_script (ns : List Status) :
    ∀ st : Status, st.hasSucceeded = false → (∀ s ∈ ns, s.hasSucceeded = false) →
    pollLoop st (ns.map Except.ok) = (LoopExit.diverge, pollTrace ns.length) := by
  induction ns with
  | nil =>
    intro st h0 _
    simp [pollLoop, h0, pollTrace]
  | cons a rest ih =>
    intro st h0 hns
    have ha : a.hasSucceeded = false := hns a (by simp)
    have hrest : ∀ s ∈ rest, s.hasSucceeded = false := fun s hs => hns s (by simp [hs])
    simp [pollLoop, h0, ih a ha hrest, pollTrace]

theorem pollLoop_error_script (ns : List Status) :
    ∀ st : Status, st.hasSucceeded = false → (∀ s ∈ ns, s.hasSucceeded = false) →
    ∀ (e : GoError) (rest : List (Except GoError Status)),
    pollLoop st (ns.map Except.ok ++ Except.error e :: rest) =
      (LoopExit.err e, pollTrace (ns.length + 1)) := by
  induction ns with
  | nil =>
    intro st h0 _ e rest
    simp [pollLoop, h0, pollTrace]
  | cons a tl ih =>
    intro st h0 hns e rest
    have ha : a.hasSucceeded = false := hns a (by simp)
    have htl : ∀ s ∈ tl, s.hasSucceeded = false := fun s hs => hns s (by simp [hs])
    simp [pollLoop, h0, ih a ha htl e rest, pollTrace]

theorem pollTrace_mem (n : Nat) :
    ∀ ev ∈ pollTrace n, ev = Event.sleep ∨ ev = Event.fetchStatus := by
  induction n with
  | zero => intro ev hev; simp [pollTrace] at hev
  | succ m ih =>
    intro ev hev
    simp [pollTrace] at hev
    rcases hev with h | h | h
    · exact Or.inl h
    · exact Or.inr h
    · exact ih ev h

theorem pollLoop_trace (script : List (Except GoError Status)) :
    ∀ st : Status, ∀ ev ∈ (pollLoop st script).2,
      ev = Event.sleep ∨ ev = Event.fetchStatus := by
  induction script with
  | nil =>
    intro st ev hev
    by_cases h : st.hasSucceeded <;> simp [pollLoop, h] at hev
  | cons r rest ih =>
    intro st ev hev
    by_cases h : st.hasSucceeded
    · simp [pollLoop, h] at hev
    · rcases r with e | next
      · simp [pollLoop, h] at hev
        rcases hev with h1 | h1
        · exact Or.inl h1
        · exact Or.inr h1
      · simp [pollLoop, h] at hev
        rcases hev with h1 | h1 | h1
        · exact Or.inl h1
        · exact Or.inr h1
        · exact ih next ev h1

theorem acquirePassword_trace (env : Env) (d : Driver) :
    ∀ ev ∈ (acquirePassword env d).2, ev = Event.readPassword := by
  intro ev hev
  by_cases hp : d.password = ""
  · rcases hs : env.stdinResult with e | s <;>
      simp [acquirePassword, hp, hs] at hev <;> exact hev
  · simp [acquirePassword, hp] at hev

theorem updateAPICredentials_trace (env : Env) (d : Driver) (c : Client) :
    ∀ ev ∈ (updateAPICredentials env d c).2,
      ev = Event.readPassword ∨ ev = Event.authenticate := by
  intro ev hev
  rcases hap : acquirePassword env d with ⟨r, tr⟩
  have htr : ∀ x ∈ tr, x = Event.readPassword := by
    intro x hx
    exact acquirePassword_trace env d x (by rw [hap]; exact hx)
  rcases r with e | pw
  · simp [updateAPICredentials, hap] at hev
    exact Or.inl (htr ev hev)
  · rcases har : env.authResult d.username pw with e | creds <;>
      simp [updateAPICredentials, hap, har] at hev <;>
      rcases hev with h | h
    · exact Or.inl (htr ev h)
    · exact Or.inr h
    · exact Or.inl (htr ev h)
    · exact Or.inr h

theorem getClientWithPersistence_trace (env : Env) (d : Driver) :
    ∀ ev ∈ (getClientWithPersistence env d).2,
      ev = Event.probeDataCenters ∨ ev = Event.readPassword ∨ ev = Event.authenticate := by
  intro ev hev
  by_cases hcache : d.bearerToken = "" ∨ d.accountAlias = ""
  · simp only [getClientWithPersistence, if_pos hcache] at hev
    rcases updateAPICredentials_trace env d _ ev hev with h | h
    · exact Or.inr (Or.inl h)
    · exact Or.inr (Or.inr h)
  · rcases hprobe : env.probeResult with err | u
    · by_cases h401 : err = GoError.requestError 401
      · rcases hup : updateAPICredentials env d (cachedClient d) with ⟨r, tr⟩
        simp only [getClientWithPersistence, if_neg hcache, hprobe, if_pos h401, hup] at hev
        simp at hev
        rcases hev with h | h
        · exact Or.inl h
        · rcases updateAPICredentials_trace env d (cachedClient d) ev (by rw [hup]; exact h) with
            h1 | h1
          · exact Or.inr (Or.inl h1)
          · exact Or.inr (Or.inr h1)
      · simp only [getClientWithPersistence, if_neg hcache, hprobe, if_neg h401] at hev
        simp at hev
        exact Or.inl hev
    · simp only [getClientWithPersistence, if_neg hcache, hprobe] at hev
      simp at hev
      exact Or.inl hev

theorem getServer_trace (env : Env) (d : Driver) :
    ∀ ev ∈ (getServer env d).2,
      ev = Event.probeDataCenters ∨ ev = Event.readPassword ∨
      ev = Event.authenticate ∨ ev = Event.fetchServer := by
  intro ev hev
  rcases hc : getClientWithPersistence env d with ⟨⟨d2, c, e?⟩, tr⟩
  have htr : ∀ x ∈ tr, x = Event.probeDataCenters ∨ x = Event.readPassword ∨
      x = Event.authenticate := by
    intro x hx
    exact getClientWithPersistence_trace env d x (by rw [hc]; exact hx)
  rcases e? with _ | e
  · rcases hf : env.serverFetch d.serverID with err | s2
    · by_cases h404 : err = GoError.requestError 404 <;>
        simp [getServer, hc, hf, h404] at hev <;>
        rcases hev with h | h
      · rcases htr ev h with h1 | h1 | h1
        · exact Or.inl h1
        · exact Or.inr (Or.inl h1)
        · exact Or.inr (Or.inr (Or.inl h1))
      · exact Or.inr (Or.inr (Or.inr h))
      · rcases htr ev h with h1 | h1 | h1
        · exact Or.inl h1
        · exact Or.inr (Or.inl h1)
        · exact Or.inr (Or.inr (Or.inl h1))
      · exact Or.inr (Or.inr (Or.inr h))
    · simp [getServer, hc, hf] at hev
      rcases hev with h | h
      · rcases htr ev h with h1 | h1 | h1
        · exact Or.inl h1
        · exact Or.inr (Or.inl h1)
        · exact Or.inr (Or.inr (Or.inl h1))
      · exact Or.inr (Or.inr (Or.inr h))
  · simp [getServer, hc] at hev
    rcases htr ev hev with h1 | h1 | h1
    · exact Or.inl h1
    · exact Or.inr (Or.inl h1)
    · exact Or.inr (Or.inr (Or.inl h1))

theorem pollTrace_count_fetch (n : Nat) :
    (pollTrace n).count Event.fetchStatus = n := by
  induction n with
  | zero => simp [pollTrace]
  | succ m ih => simp [pollTrace, List.count_cons, ih]

theorem publicIPFromAddresses_first (pre : List IPAddress) :
    ∀ (a : IPAddress) (post : List IPAddress), (∀ b ∈ pre, b.public = "") →
    a.public ≠ "" → publicIPFromAddresses (pre ++ a :: post) = a.public := by
  induction pre with
  | nil =>
    intro a post _ hpub
    simp [publicIPFromAddresses, hpub]
  | cons b tl ih =>
    intro a post hpre hpub
    have hb : b.public = "" := hpre b (by simp)
    have htl : ∀ x ∈ tl, x.public = "" := fun x hx => hpre x (by simp [hx])
    simp [publicIPFromAddresses, hb, ih a post htl hpub]

theorem publicIPFromAddresses_none (l : List IPAddress) :
    (∀ b ∈ l, b.public = "") → publicIPFromAddresses l = "" := by
  induction l with
  | nil => intro _; simp [publicIPFromAddresses]
  | cons b tl ih =>
    intro h
    have hb : b.public = "" := h b (by simp)
    have htl : ∀ x ∈ tl, x.public = "" := fun x hx => h x (by simp [hx])
    simp [publicIPFromAddresses, hb, ih htl]

theorem createServer_trace (env : Env) (d : Driver) :
    ∀ ev ∈ (createServer env d).2,
      ev = Event.saveServer ∨ ev = Event.sleep ∨ ev = Event.fetchStatus ∨
      ev = Event.fetchServer := by
  intro ev hev
  rcases hsave : env.serverSave (requestServer d) with e | st
  · simp [createServer, hsave] at hev
    exact Or.inl hev
  · rcases hp : pollLoop st env.createPollScript with ⟨x, ptr⟩
    have hptr : ∀ y ∈ ptr, y = Event.sleep ∨ y = Event.fetchStatus := by
      intro y hy
      exact pollLoop_trace env.createPollScript st y (by rw [hp]; exact hy)
    rcases x with _ | e | _
    · rcases hf : env.createRefetch with e | s2 <;>
        simp [createServer, hsave, hp, hf] at hev <;>
        rcases hev with h | h | h
      · exact Or.inl h
      · rcases hptr ev h with h1 | h1
        · exact Or.inr (Or.inl h1)
        · exact Or.inr (Or.inr (Or.inl h1))
      · exact Or.inr (Or.inr (Or.inr h))
      · exact Or.inl h
      · rcases hptr ev h with h1 | h1
        · exact Or.inr (Or.inl h1)
        · exact Or.inr (Or.inr (Or.inl h1))
      · exact Or.inr (Or.inr (Or.inr h))
    · simp [createServer, hsave, hp] at hev
      rcases hev with h | h
      · exact Or.inl h
      · rcases hptr ev h with h1 | h1
        · exact Or.inr (Or.inl h1)
        · exact Or.inr (Or.inr (Or.inl h1))
    · simp [createServer, hsave, hp] at hev
      rcases hev with h | h
      · exact Or.inl h
      · rcases hptr ev h with h1 | h1
        · exact Or.inr (Or.inl h1)
        · exact Or.inr (Or.inr (Or.inl h1))

theorem addPublicIPAddress_trace (env : Env) (s : Server) :
    ∀ ev ∈ (addPublicIPAddress env s).2,
      ev = Event.saveIPAddress ∨ ev = Event.sleep ∨ ev = Event.fetchStatus ∨
      ev = Event.fetchServer := by
  intro ev hev
  rcases hsave : env.ipSave (publicIPRequest s) with e | st
  · simp [addPublicIPAddress, hsave] at hev
    exact Or.inl hev
  · rcases hp : pollLoop st env.ipPollScript with ⟨x, ptr⟩
    have hptr : ∀ y ∈ ptr, y = Event.sleep ∨ y = Event.fetchStatus := by
      intro y hy
      exact pollLoop_trace env.ipPollScript st y (by rw [hp]; exact hy)
    rcases x with _ | e | _
    · rcases hf : env.ipRefetch with e | s2
      · simp [addPublicIPAddress, hsave, hp, hf] at hev
        rcases hev with h | h | h
        · exact Or.inl h
        · rcases hptr ev h with h1 | h1
          · exact Or.inr (Or.inl h1)
          · exact Or.inr (Or.inr (Or.inl h1))
        · exact Or.inr (Or.inr (Or.inr h))
      · by_cases hip : publicIPFromServer s2 = "" <;>
          simp [addPublicIPAddress, hsave, hp, hf, hip] at hev <;>
          rcases hev with h | h | h
        · exact Or.inl h
        · rcases hptr ev h with h1 | h1
          · exact Or.inr (Or.inl h1)
          · exact Or.inr (Or.inr (Or.inl h1))
        · exact Or.inr (Or.inr (Or.inr h))
        · exact Or.inl h
        · rcases hptr ev h with h1 | h1
          · exact Or.inr (Or.inl h1)
          · exact Or.inr (Or.inr (Or.inl h1))
        · exact Or.inr (Or.inr (Or.inr h))
    · simp [addPublicIPAddress, hsave, hp] at hev
      rcases hev with h | h
      · exact Or.inl h
      · rcases hptr ev h with h1 | h1
        · exact Or.inr (Or.inl h1)
        · exact Or.inr (Or.inr (Or.inl h1))
    · simp [addPublicIPAddress, hsave, hp] at hev
      rcases hev with h | h
      · exact Or.inl h
      · rcases hptr ev h with h1 | h1
        · exact Or.inr (Or.inl h1)
        · exact Or.inr (Or.inr (Or.inl h1))

/-! The claims. -/

/-- C1: every power-state lifecycle operation (Start, Stop, Restart, Kill)
routes through doOperation, and when the SaveEntity submission of the
state-changing request fails, doOperation returns nil — reporting success
without entering the poll loop — instead of propagating the submission
error. -/
theorem doOperation_swallows_submission_error (env : Env) (d : Driver)
    (t : OperationType) (d2 : Driver) (c : Client) (s : Server)
    (tr : List Event) (e : GoError)
    (hg : getServer env d = ((d2, c, s, none), tr))
    (hs : env.opSave s t = Except.error e) :
    (Start env d = doOperation env d OperationType.powerOnServer ∧
     Stop env d = doOperation env d OperationType.powerOffServer ∧
     Restart env d = doOperation env d OperationType.rebootServer ∧
     Kill env d = doOperation env d OperationType.powerOffServer) ∧
    doOperation env d t = ((d2, Res.ret () none), tr ++ [Event.saveOperation]) ∧
    Event.fetchStatus ∉ (doOperation env d t).2 := by
  have h2 : doOperation env d t = ((d2, Res.ret () none), tr ++ [Event.saveOperation]) := by
    simp [doOperation, hg, hs]
  refine ⟨⟨rfl, rfl, rfl, rfl⟩, h2, ?_⟩
  rw [h2]
  simp only [List.mem_append, List.mem_singleton]
  rintro (hmem | hmem)
  · rcases getServer_trace env d Event.fetchStatus (by rw [hg]; exact hmem) with h | h | h | h <;>
      simp at h
  · simp at hmem

/-- C1 witness: with a failing submission and every other call healthy,
doOperation on the test driver reports success and fetches no status. -/
theorem doOperation_swallows_submission_error_witness :
    doOperation opSaveFailEnv testDriver OperationType.powerOnServer =
      ((testDriver, Res.ret () none),
       [Event.probeDataCenters, Event.fetchServer] ++ [Event.saveOperation]) ∧
    Event.fetchStatus ∉ (doOperation opSaveFailEnv testDriver OperationType.powerOnServer).2 :=
  ⟨(doOperation_swallows_submission_error opSaveFailEnv testDriver .powerOnServer testDriver
      (cachedClient testDriver) testServer [Event.probeDataCenters, Event.fetchServer]
      (GoError.simple "boom") rfl rfl).2.1,
   (doOperation_swallows_submission_error opSaveFailEnv testDriver .powerOnServer testDriver
      (cachedClient testDriver) testServer [Event.probeDataCenters, Event.fetchServer]
      (GoError.simple "boom") rfl rfl).2.2⟩

/-- C2: the poller returns success only when a status reports terminal
success — on an all-non-terminal script it never returns — and on a script
of N non-terminal statuses followed by one terminal success it performs
exactly N+1 status fetches, each preceded by the fixed delay, after which
doOperation reports success. -/
theorem poller_exact_fetches (st term : Status) (ns : List Status)
    (h0 : st.hasSucceeded = false)
    (hns : ∀ s ∈ ns, s.hasSucceeded = false)
    (ht : term.hasSucceeded = true) :
    pollLoop st (ns.map Except.ok) = (LoopExit.diverge, pollTrace ns.length) ∧
    pollLoop st (ns.map Except.ok ++ [Except.ok term]) =
      (LoopExit.ok, pollTrace (ns.length + 1)) ∧
    (pollTrace (ns.length + 1)).count Event.fetchStatus = ns.length + 1 ∧
    (∀ (env : Env) (d : Driver) (t : OperationType) (d2 : Driver) (c : Client)
       (s : Server) (tr : List Event),
      getServer env d = ((d2, c, s, none), tr) →
      env.opSave s t = Except.ok st →
      env.opPollScript = ns.map Except.ok ++ [Except.ok term] →
      doOperation env d t =
        ((d2, Res.ret () none), tr ++ Event.saveOperation :: pollTrace (ns.length + 1))) := by
  refine ⟨pollLoop_diverge_script ns st h0 hns, pollLoop_ok_script ns st h0 hns term ht,
    pollTrace_count_fetch (ns.length + 1), ?_⟩
  intro env d t d2 c s tr hg hs hscript
  simp [doOperation, hg, hs, hscript, pollLoop_ok_script ns st h0 hns term ht]

/-- C2 witness: two pending statuses and then success make exactly three
delay-then-fetch iterations, and the lifecycle operation succeeds. -/
theorem poller_exact_fetches_witness :
    pollLoop pendingStatus
        ([pendingStatus, pendingStatus].map Except.ok ++ [Except.ok doneStatus]) =
      (LoopExit.ok, pollTrace 3) ∧
    doOperation threePollEnv testDriver OperationType.powerOnServer =
      ((testDriver, Res.ret () none),
       [Event.probeDataCenters, Event.fetchServer] ++ Event.saveOperation :: pollTrace 3) := by
  have h := poller_exact_fetches pendingStatus doneStatus [pendingStatus, pendingStatus]
    rfl (by decide) rfl
  exact ⟨h.2.1, h.2.2.2 threePollEnv testDriver .powerOnServer testDriver
    (cachedClient testDriver) testServer [Event.probeDataCenters, Event.fetchServer]
    rfl rfl rfl⟩

/-- C8: in each of the four polling loops (doOperation, Remove,
createServer, addPublicIPAddress) a transport failure of the status
re-fetch ends the wait at once — the loop performs no further fetch,
whatever the rest of the script holds — and that error is the one the
enclosing call returns. -/
theorem poll_fetch_error_propagates (st : Status) (ns : List Status) (e : GoError)
    (h0 : st.hasSucceeded = false)
    (hns : ∀ s ∈ ns, s.hasSucceeded = false) :
    (∀ rest, pollLoop st (ns.map Except.ok ++ Except.error e :: rest) =
      (LoopExit.err e, pollTrace (ns.length + 1))) ∧
    (∀ (env : Env) (d : Driver) (t : OperationType) (d2 : Driver) (c : Client)
       (s : Server) (tr : List Event) (rest : List (Except GoError Status)),
      getServer env d = ((d2, c, s, none), tr) →
      env.opSave s t = Except.ok st →
      env.opPollScript = ns.map Except.ok ++ Except.error e :: rest →
      doOperation env d t =
        ((d2, Res.ret () (some e)), tr ++ Event.saveOperation :: pollTrace (ns.length + 1))) ∧
    (∀ (env : Env) (d : Driver) (d2 : Driver) (c : Client) (s : Server)
       (tr : List Event) (rest : List (Except GoError Status)),
      getServer env d = ((d2, c, s, none), tr) →
      env.deleteEntity s = Except.ok st →
      env.deletePollScript = ns.map Except.ok ++ Except.error e :: rest →
      Remove env d =
        ((d2, Res.ret () (some e)), tr ++ Event.deleteServer :: pollTrace (ns.length + 1))) ∧
    (∀ (env : Env) (d : Driver) (rest : List (Except GoError Status)),
      env.serverSave (requestServer d) = Except.ok st →
      env.createPollScript = ns.map Except.ok ++ Except.error e :: rest →
      createServer env d =
        ((d, Res.ret (requestServer d) (some e)),
         Event.saveServer :: pollTrace (ns.length + 1))) ∧
    (∀ (env : Env) (s : Server) (rest : List (Except GoError Status)),
      env.ipSave (publicIPRequest s) = Except.ok st →
      env.ipPollScript = ns.map Except.ok ++ Except.error e :: rest →
      addPublicIPAddress env s =
        (Res.ret s (some e), Event.saveIPAddress :: pollTrace (ns.length + 1))) := by
  refine ⟨fun rest => pollLoop_error_script ns st h0 hns e rest, ?_, ?_, ?_, ?_⟩
  · intro env d t d2 c s tr rest hg hs hscript
    simp [doOperation, hg, hs, hscript, pollLoop_error_script ns st h0 hns e rest]
  · intro env d d2 c s tr rest hg hs hscript
    simp [Remove, hg, hs, hscript, pollLoop_error_script ns st h0 hns e rest]
  · intro env d rest hs hscript
    simp [createServer, hs, hscript, pollLoop_error_script ns st h0 hns e rest]
  · intro env s rest hs hscript
    simp [addPublicIPAddress, hs, hscript, pollLoop_error_script ns st h0 hns e rest]

/-- C8 witness: a first-fetch transport failure aborts all four loops with
that error after exactly one delay-and-fetch. -/
theorem poll_fetch_error_propagates_witness :
    pollLoop pendingStatus [Except.error (GoError.simple "net down")] =
      (LoopExit.err (GoError.simple "net down"), pollTrace 1) ∧
    doOperation pollFailEnv testDriver OperationType.powerOffServer =
      ((testDriver, Res.ret () (some (GoError.simple "net down"))),
       [Event.probeDataCenters, Event.fetchServer] ++ Event.saveOperation :: pollTrace 1) ∧
    Remove pollFailEnv testDriver =
      ((testDriver, Res.ret () (some (GoError.simple "net down"))),
       [Event.probeDataCenters, Event.fetchServer] ++ Event.deleteServer :: pollTrace 1) ∧
    createServer pollFailEnv testDriver =
      ((testDriver, Res.ret (requestServer testDriver) (some (GoError.simple "net down"))),
       Event.saveServer :: pollTrace 1) ∧
    addPublicIPAddress pollFailEnv testServer =
      (Res.ret testServer (some (GoError.simple "net down")),
       Event.saveIPAddress :: pollTrace 1) := by
  have h := poll_fetch_error_propagates pendingStatus [] (GoError.simple "net down")
    rfl (by simp)
  exact ⟨h.1 [],
    h.2.1 pollFailEnv testDriver .powerOffServer testDriver (cachedClient testDriver)
      testServer [Event.probeDataCenters, Event.fetchServer] [] rfl rfl rfl,
    h.2.2.1 pollFailEnv testDriver testDriver (cachedClient testDriver) testServer
      [Event.probeDataCenters, Event.fetchServer] [] rfl rfl rfl,
    h.2.2.2.1 pollFailEnv testDriver [] rfl rfl,
    h.2.2.2.2 pollFailEnv testServer [] rfl rfl⟩

/-- C9: Remove propagates a failing DeleteEntity submission to the caller —
with no status fetch, so the poll loop is only entered when the submission
yielded an operation handle — unlike doOperation, which swallows a failing
submission and returns nil. -/
theorem Remove_propagates_submission_error (env : Env) (d : Driver)
    (d2 : Driver) (c : Client) (s : Server) (tr : List Event)
    (hg : getServer env d = ((d2, c, s, none), tr)) :
    (∀ e, env.deleteEntity s = Except.error e →
      Remove env d = ((d2, Res.ret () (some e)), tr ++ [Event.deleteServer]) ∧
      Event.fetchStatus ∉ (Remove env d).2) ∧
    (∀ t e, env.opSave s t = Except.error e →
      doOperation env d t = ((d2, Res.ret () none), tr ++ [Event.saveOperation])) := by
  constructor
  · intro e he
    have h2 : Remove env d = ((d2, Res.ret () (some e)), tr ++ [Event.deleteServer]) := by
      simp [Remove, hg, he]
    refine ⟨h2, ?_⟩
    rw [h2]
    simp only [List.mem_append, List.mem_singleton]
    rintro (hmem | hmem)
    · rcases getServer_trace env d Event.fetchStatus (by rw [hg]; exact hmem) with
        h | h | h | h <;> simp at h
    · simp at hmem
  · intro t e he
    simp [doOperation, hg, he]

/-- C3: with a cached token and account pair, getClientWithPersistence
probes with a read-only request; exactly when the probe fails with a 401
RequestError one re-authentication happens and the cached pair is replaced
by the fresh credentials (a failing re-authentication is propagated), and
any other probe failure is returned to the caller unchanged with no
re-authentication. -/
theorem getClientWithPersistence_reauth_on_401 (env : Env) (d : Driver)
    (hb : d.bearerToken ≠ "") (ha : d.accountAlias ≠ "") :
    (env.probeResult = Except.ok () →
      getClientWithPersistence env d = ((d, cachedClient d, none), [Event.probeDataCenters]) ∧
      ((getClientWithPersistence env d).2).count Event.authenticate = 0) ∧
    (∀ e, env.probeResult = Except.error e → e ≠ GoError.requestError 401 →
      getClientWithPersistence env d = ((d, cachedClient d, some e), [Event.probeDataCenters]) ∧
      ((getClientWithPersistence env d).2).count Event.authenticate = 0) ∧
    (env.probeResult = Except.error (GoError.requestError 401) →
      ∀ pw ptr, acquirePassword env d = (Except.ok pw, ptr) →
        ((getClientWithPersistence env d).2).count Event.authenticate = 1 ∧
        (∀ creds, env.authResult d.username pw = Except.ok creds →
          getClientWithPersistence env d =
            (({ d with accountAlias := creds.accountAlias, bearerToken := creds.bearerToken },
              { cachedClient d with apiCredentials := creds }, none),
             Event.probeDataCenters :: (ptr ++ [Event.authenticate]))) ∧
        (∀ e2, env.authResult d.username pw = Except.error e2 →
          getClientWithPersistence env d =
            ((d, cachedClient d, some e2),
             Event.probeDataCenters :: (ptr ++ [Event.authenticate])))) := by
  have hcache : ¬(d.bearerToken = "" ∨ d.accountAlias = "") := by
    simp [hb, ha]
  refine ⟨?_, ?_, ?_⟩
  · intro hp
    have heq : getClientWithPersistence env d =
        ((d, cachedClient d, none), [Event.probeDataCenters]) := by
      simp [getClientWithPersistence, hcache, hp]
    exact ⟨heq, by rw [heq]; simp⟩
  · intro e hp hne
    have heq : getClientWithPersistence env d =
        ((d, cachedClient d, some e), [Event.probeDataCenters]) := by
      simp [getClientWithPersistence, hcache, hp, hne]
    exact ⟨heq, by rw [heq]; simp⟩
  · intro hp pw ptr hap
    have hptr0 : ptr.count Event.authenticate = 0 := by
      rw [List.count_eq_zero]
      intro hmem
      have h := acquirePassword_trace env d Event.authenticate (by rw [hap]; exact hmem)
      simp at h
    refine ⟨?_, ?_, ?_⟩
    · rcases har : env.authResult d.username pw with e2 | creds <;>
        simp [getClientWithPersistence, hcache, hp, updateAPICredentials, hap, har,
          List.count_cons, List.count_append, hptr0]
    · intro creds hcreds
      simp [getClientWithPersistence, hcache, hp, updateAPICredentials, hap, hcreds]
    · intro e2 he2
      simp [getClientWithPersistence, hcache, hp, updateAPICredentials, hap, he2]

/-- C3 witness: a healthy probe keeps the cached pair with no
re-authentication; a 500 probe propagates unchanged; a 401 probe
re-authenticates exactly once, replacing the pair on success and
propagating the authentication error on failure. -/
theorem getClientWithPersistence_reauth_on_401_witness :
    getClientWithPersistence testEnv testDriver =
      ((testDriver, cachedClient testDriver, none), [Event.probeDataCenters]) ∧
    getClientWithPersistence probe500Env testDriver =
      ((testDriver, cachedClient testDriver, some (GoError.requestError 500)),
       [Event.probeDataCenters]) ∧
    ((getClientWithPersistence probe401Env testDriver).2).count Event.authenticate = 1 ∧
    getClientWithPersistence probe401Env testDriver =
      (({ testDriver with accountAlias := "acct2", bearerToken := "tok2" },
        { cachedClient testDriver with
          apiCredentials := { bearerToken := "tok2", accountAlias := "acct2" } }, none),
       Event.probeDataCenters :: ([] ++ [Event.authenticate])) ∧
    getClientWithPersistence probe401AuthFailEnv testDriver =
      ((testDriver, cachedClient testDriver, some (GoError.simple "bad login")),
       Event.probeDataCenters :: ([] ++ [Event.authenticate])) := by
  have h1 := getClientWithPersistence_reauth_on_401 testEnv testDriver (by decide) (by decide)
  have h2 := getClientWithPersistence_reauth_on_401 probe500Env testDriver (by decide) (by decide)
  have h3 := getClientWithPersistence_reauth_on_401 probe401Env testDriver (by decide) (by decide)
  have h4 := getClientWithPersistence_reauth_on_401 probe401AuthFailEnv testDriver
    (by decide) (by decide)
  exact ⟨(h1.1 rfl).1,
    (h2.2.1 (GoError.requestError 500) rfl (by decide)).1,
    (h3.2.2 rfl "pw" [] rfl).1,
    (h3.2.2 rfl "pw" [] rfl).2.1 { bearerToken := "tok2", accountAlias := "acct2" } rfl,
    (h4.2.2 rfl "pw" [] rfl).2.2 (GoError.simple "bad login") rfl⟩

/-- C4: when the provider fetch of a server ID fails with a 404
RequestError, getServer yields the domain error naming that ID (not the
raw transport error), and every other fetch failure is propagated
as-is. -/
theorem getServer_translates_not_found (env : Env) (d : Driver)
    (d2 : Driver) (c : Client) (tr : List Event)
    (hc : getClientWithPersistence env d = ((d2, c, none), tr)) :
    (env.serverFetch d.serverID = Except.error (GoError.requestError 404) →
      getServer env d =
        ((d2, c, serverWithID d.serverID,
          some (GoError.simple
            ("unable to find a server with the ID \'" ++ d.serverID ++ "\'"))),
         tr ++ [Event.fetchServer])) ∧
    (∀ e, env.serverFetch d.serverID = Except.error e → e ≠ GoError.requestError 404 →
      getServer env d =
        ((d2, c, serverWithID d.serverID, some e), tr ++ [Event.fetchServer])) := by
  constructor
  · intro hf
    simp [getServer, hc, hf]
  · intro e hf hne
    simp [getServer, hc, hf, hne]

/-- C4 witness: a 404 on the test ID yields the domain error naming it; a
500 passes through unchanged. -/
theorem getServer_translates_not_found_witness :
    getServer fetch404Env testDriver =
      ((testDriver, cachedClient testDriver, serverWithID testDriver.serverID,
        some (GoError.simple
          ("unable to find a server with the ID \'" ++ testDriver.serverID ++ "\'"))),
       [Event.probeDataCenters] ++ [Event.fetchServer]) ∧
    getServer fetch500Env testDriver =
      ((testDriver, cachedClient testDriver, serverWithID testDriver.serverID,
        some (GoError.requestError 500)),
       [Event.probeDataCenters] ++ [Event.fetchServer]) :=
  ⟨(getServer_translates_not_found fetch404Env testDriver testDriver
      (cachedClient testDriver) [Event.probeDataCenters] rfl).1 rfl,
   (getServer_translates_not_found fetch500Env testDriver testDriver
      (cachedClient testDriver) [Event.probeDataCenters] rfl).2
      (GoError.requestError 500) rfl (by decide)⟩

/-- C6: GetIP returns the public value of the first address with a
non-empty public classification; on a resolved server with no public
address (none at all, or only private ones) it returns the domain error,
and it never returns an empty string as a success. -/
theorem GetIP_first_public_or_error (env : Env) (d : Driver)
    (d2 : Driver) (c : Client) (s : Server) (tr : List Event)
    (hg : getServer env d = ((d2, c, s, none), tr)) :
    (∀ pre a post, s.details.ipAddresses = pre ++ a :: post →
      (∀ b ∈ pre, b.public = "") → a.public ≠ "" →
      GetIP env d = ((d2, a.public, none), tr)) ∧
    ((∀ a ∈ s.details.ipAddresses, a.public = "") →
      GetIP env d =
        ((d2, "", some (GoError.simple "no IP could be found for this server")), tr)) ∧
    (∀ ip, GetIP env d = ((d2, ip, none), tr) → ip ≠ "") := by
  refine ⟨?_, ?_, ?_⟩
  · intro pre a post hsplit hpre hpub
    have hfirst : publicIPFromServer s = a.public := by
      rw [publicIPFromServer, hsplit]
      exact publicIPFromAddresses_first pre a post hpre hpub
    simp [GetIP, hg, hfirst, hpub]
  · intro hall
    have hnone : publicIPFromServer s = "" := by
      rw [publicIPFromServer]
      exact publicIPFromAddresses_none s.details.ipAddresses hall
    simp [GetIP, hg, hnone]
  · intro ip hip
    by_cases hz : publicIPFromServer s = ""
    · simp [GetIP, hg, hz] at hip
    · have heq : GetIP env d = ((d2, publicIPFromServer s, none), tr) := by
        simp [GetIP, hg, hz]
      rw [heq] at hip
      simp at hip
      rw [← hip]
      exact hz

/-- C6 witness: the test server yields its single public address; a server
with only a private address yields the domain error. -/
theorem GetIP_first_public_or_error_witness :
    GetIP testEnv testDriver =
      ((testDriver, "1.2.3.4", none), [Event.probeDataCenters, Event.fetchServer]) ∧
    GetIP privateFetchEnv testDriver =
      ((testDriver, "", some (GoError.simple "no IP could be found for this server")),
       [Event.probeDataCenters, Event.fetchServer]) := by
  have h1 := GetIP_first_public_or_error testEnv testDriver testDriver
    (cachedClient testDriver) testServer [Event.probeDataCenters, Event.fetchServer] rfl
  have h2 := GetIP_first_public_or_error privateFetchEnv testDriver testDriver
    (cachedClient testDriver) privateServer [Event.probeDataCenters, Event.fetchServer] rfl
  exact ⟨h1.1 [] { public := "1.2.3.4", internal := "10.0.0.1" } [] rfl (by simp) (by decide),
    h2.2.1 (by decide)⟩

/-- C7: GetState maps the resolved server's activity flags — active to
Running, otherwise paused to Paused, anything else to Stopped — and every
resolution failure yields the Error state together with that error. -/
theorem GetState_maps_activity (env : Env) (d : Driver) :
    (∀ d2 c s tr, getServer env d = ((d2, c, s, none), tr) →
      (s.isActive = true → GetState env d = ((d2, MachineState.Running, none), tr)) ∧
      (s.isActive = false → s.isPaused = true →
        GetState env d = ((d2, MachineState.Paused, none), tr)) ∧
      (s.isActive = false → s.isPaused = false →
        GetState env d = ((d2, MachineState.Stopped, none), tr))) ∧
    (∀ d2 c s e tr, getServer env d = ((d2, c, s, some e), tr) →
      GetState env d = ((d2, MachineState.Error, some e), tr)) := by
  constructor
  · intro d2 c s tr hg
    exact ⟨fun hact => by simp [GetState, hg, hact],
      fun hact hpau => by simp [GetState, hg, hact, hpau],
      fun hact hpau => by simp [GetState, hg, hact, hpau]⟩
  · intro d2 c s e tr hg
    simp [GetState, hg]

/-- C7 witness: an active server maps to Running, a paused one to Paused,
an inactive unpaused one to Stopped, and a failing resolution to Error
with the error. -/
theorem GetState_maps_activity_witness :
    GetState testEnv testDriver =
      ((testDriver, MachineState.Running, none),
       [Event.probeDataCenters, Event.fetchServer]) ∧
    GetState pausedFetchEnv testDriver =
      ((testDriver, MachineState.Paused, none),
       [Event.probeDataCenters, Event.fetchServer]) ∧
    GetState stoppedFetchEnv testDriver =
      ((testDriver, MachineState.Stopped, none),
       [Event.probeDataCenters, Event.fetchServer]) ∧
    GetState fetch500Env testDriver =
      ((testDriver, MachineState.Error, some (GoError.requestError 500)),
       [Event.probeDataCenters, Event.fetchServer]) :=
  ⟨((GetState_maps_activity testEnv testDriver).1 testDriver (cachedClient testDriver)
      testServer [Event.probeDataCenters, Event.fetchServer] rfl).1 rfl,
   ((GetState_maps_activity pausedFetchEnv testDriver).1 testDriver (cachedClient testDriver)
      { testServer with isActive := false, isPaused := true }
      [Event.probeDataCenters, Event.fetchServer] rfl).2.1 rfl rfl,
   ((GetState_maps_activity stoppedFetchEnv testDriver).1 testDriver (cachedClient testDriver)
      { testServer with isActive := false, isPaused := false }
      [Event.probeDataCenters, Event.fetchServer] rfl).2.2 rfl rfl,
   (GetState_maps_activity fetch500Env testDriver).2 testDriver (cachedClient testDriver)
      (serverWithID testDriver.serverID) (GoError.requestError 500)
      [Event.probeDataCenters, Event.fetchServer] rfl⟩

/-- C5: Create runs its steps in order — create server, attach public
address, establish SSH trust, set hostname, install the runtime — a
failure at any step aborts the remainder and surfaces that step's error,
and in particular when the attach-address step fails no trust, hostname or
install call is ever made (the whole trace holds no event of those
steps). -/
theorem Create_steps_in_order_and_gated (env : Env) (d : Driver)
    (d1 : Driver) (c : Client) (tr0 : List Event)
    (hc : getClientWithPersistence env d = ((d1, c, none), tr0)) :
    (∀ d2 s e tr1, createServer env d1 = ((d2, Res.ret s (some e)), tr1) →
      Create env d = ((d2, Res.ret () (some e)), tr0 ++ tr1)) ∧
    (∀ d2 s tr1, createServer env d1 = ((d2, Res.ret s none), tr1) →
      (∀ s2 e tr2, addPublicIPAddress env s = (Res.ret s2 (some e), tr2) →
        Create env d = ((d2, Res.ret () (some e)), tr0 ++ tr1 ++ tr2) ∧
        (∀ ev ∈ tr0 ++ tr1 ++ tr2,
          ev ≠ Event.fetchCredentials ∧ ev ≠ Event.waitForSSH ∧ ev ≠ Event.dialSSH ∧
          ev ≠ Event.newSession ∧ ev ≠ Event.generateKey ∧ ev ≠ Event.readPublicKey ∧
          ev ≠ Event.runSession ∧ ∀ cs : String, ev ≠ Event.runCommand cs)) ∧
      (∀ s2 tr2, addPublicIPAddress env s = (Res.ret s2 none, tr2) →
        (∀ e tr3, generateAndWriteSSHKey env d2 s2 = (some e, tr3) →
          Create env d = ((d2, Res.ret () (some e)), tr0 ++ tr1 ++ tr2 ++ tr3)) ∧
        (∀ tr3, generateAndWriteSSHKey env d2 s2 = (none, tr3) →
          (∀ d3 e tr4, setHostname env d2 = ((d3, some e), tr4) →
            Create env d = ((d3, Res.ret () (some e)), tr0 ++ tr1 ++ tr2 ++ tr3 ++ tr4)) ∧
          (∀ d3 tr4, setHostname env d2 = ((d3, none), tr4) →
            ∀ d4 e? tr5, installDocker env d3 = ((d4, e?), tr5) →
              Create env d =
                ((d4, Res.ret () e?), tr0 ++ tr1 ++ tr2 ++ tr3 ++ tr4 ++ tr5))))) := by
  constructor
  · intro d2 s e tr1 h1
    simp [Create, hc, h1]
  · intro d2 s tr1 h1
    constructor
    · intro s2 e tr2 h2
      refine ⟨by simp [Create, hc, h1, h2], ?_⟩
      intro ev hev
      have hsrc : ev ∈ tr0 ∨ ev ∈ tr1 ∨ ev ∈ tr2 := by
        simp only [List.mem_append] at hev
        tauto
      have hshape : ev = Event.probeDataCenters ∨ ev = Event.readPassword ∨
          ev = Event.authenticate ∨ ev = Event.saveServer ∨ ev = Event.sleep ∨
          ev = Event.fetchStatus ∨ ev = Event.fetchServer ∨ ev = Event.saveIPAddress := by
        rcases hsrc with h | h | h
        · rcases getClientWithPersistence_trace env d ev (by rw [hc]; exact h) with
            hx | hx | hx <;> tauto
        · rcases createServer_trace env d1 ev (by rw [h1]; exact h) with
            hx | hx | hx | hx <;> tauto
        · rcases addPublicIPAddress_trace env s ev (by rw [h2]; exact h) with
            hx | hx | hx | hx <;> tauto
      rcases hshape with h | h | h | h | h | h | h | h <;> subst h <;>
        exact ⟨by simp, by simp, by simp, by simp, by simp, by simp, by simp,
          fun cs => by simp⟩
    · intro s2 tr2 h2
      constructor
      · intro e tr3 h3
        simp [Create, hc, h1, h2, h3]
      · intro tr3 h3
        constructor
        · intro d3 e tr4 h4
          simp [Create, hc, h1, h2, h3, h4]
        · intro d3 tr4 h4 d4 e? tr5 h5
          simp [Create, hc, h1, h2, h3, h4, h5]

/-- C5 witness: with the attach-address submission failing, Create stops
after the attach step and surfaces its error; the trace ends at the
attach submission. -/
theorem Create_steps_in_order_and_gated_witness :
    Create ipSaveFailEnv testDriver =
      ((testDriver, Res.ret () (some (GoError.simple "attach failed"))),
       [Event.probeDataCenters] ++
        [Event.saveServer, Event.sleep, Event.fetchStatus, Event.fetchServer] ++
        [Event.saveIPAddress]) :=
  (((Create_steps_in_order_and_gated ipSaveFailEnv testDriver testDriver
      (cachedClient testDriver) [Event.probeDataCenters] rfl).2 testDriver testServer
      [Event.saveServer, Event.sleep, Event.fetchStatus, Event.fetchServer] rfl).1
      testServer (GoError.simple "attach failed") [Event.saveIPAddress] rfl).1

/-- C10: Upgrade runs the upgrade command and, if that run succeeded, runs
the same command object a second time and returns the second result; a
failing first run is returned at once and no second run happens. -/
theorem Upgrade_runs_command_twice (env : Env) (d : Driver)
    (d2 : Driver) (ip : String) (tr : List Event)
    (hip : GetIP env d = ((d2, ip, none), tr)) :
    (∀ e rest, env.cmdRuns upgradeCommand = some e :: rest →
      Upgrade env d = ((d2, some e), tr ++ [Event.runCommand upgradeCommand])) ∧
    (∀ r rest, env.cmdRuns upgradeCommand = none :: r :: rest →
      Upgrade env d =
        ((d2, r),
         tr ++ [Event.runCommand upgradeCommand, Event.runCommand upgradeCommand])) := by
  constructor
  · intro e rest hruns
    simp [Upgrade, GetSSHCommand, hip, runCmd, hruns]
  · intro r rest hruns
    simp [Upgrade, GetSSHCommand, hip, runCmd, hruns]

/-- C10 witness: a failing first run is returned after one run event; a
succeeding first run leads to a second run whose result is returned. -/
theorem Upgrade_runs_command_twice_witness :
    Upgrade upgradeFail1Env testDriver =
      ((testDriver, some (GoError.simple "run one failed")),
       [Event.probeDataCenters, Event.fetchServer] ++ [Event.runCommand upgradeCommand]) ∧
    Upgrade upgradeFail2Env testDriver =
      ((testDriver, some (GoError.simple "run two failed")),
       [Event.probeDataCenters, Event.fetchServer] ++
        [Event.runCommand upgradeCommand, Event.runCommand upgradeCommand]) :=
  ⟨(Upgrade_runs_command_twice upgradeFail1Env testDriver testDriver "1.2.3.4"
      [Event.probeDataCenters, Event.fetchServer] rfl).1
      (GoError.simple "run one failed") [none] rfl,
   (Upgrade_runs_command_twice upgradeFail2Env testDriver testDriver "1.2.3.4"
      [Event.probeDataCenters, Event.fetchServer] rfl).2
      (some (GoError.simple "run two failed")) [] rfl⟩

/-- C9 witness: a refused delete submission surfaces as the Remove error
and no status is fetched. -/
theorem Remove_propagates_submission_error_witness :
    Remove deleteFailEnv testDriver =
      ((testDriver, Res.ret () (some (GoError.simple "delete refused"))),
       [Event.probeDataCenters, Event.fetchServer] ++ [Event.deleteServer]) ∧
    Event.fetchStatus ∉ (Remove deleteFailEnv testDriver).2 :=
  (Remove_propagates_submission_error deleteFailEnv testDriver testDriver
    (cachedClient testDriver) testServer [Event.probeDataCenters, Event.fetchServer]
    rfl).1 (GoError.simple "delete refused") rfl

end CLC
